import Mathlib

/-
Verification development for the finance-chatbot repository.

The repository is a Python/Streamlit application (src/finance_chatbot/app.py
plus finance_db.py).  The definitions below are a shallow embedding of the
functions the claims are about:

* the symbol catalog dictionaries and `find_symbol` (app.py lines 62-201),
* the market-data gateway `get_yahoo_finance_data` / `get_forex_data`
  (app.py lines 107-150), with the TTL cache of the caching decorator made
  explicit,
* the response composer `generate_ai_response` / `generate_fallback_response`
  (app.py lines 203-381),
* the transaction ledger `add_transaction` / `get_all_transactions`
  (finance_db.py).

Outbound network effects (the Alpha Vantage endpoints and the generative-model
call) are modelled by an explicit environment `Env` of oracles; machine floats
are modelled as rationals (the code never does arithmetic on them beyond
parsing and sign tests); Python's implicit `None` return is `Option.none`.
Python string primitives (`lower`, `strip`, `in`, `replace`, slicing) are
re-implemented on `List Char` so that everything evaluates in the kernel.
-/

namespace FinanceChatbot

/-- Python `str.lower` on one character (the catalog and the queries exercised
by the claims are ASCII, which is the fragment the embedding models). -/
def lowerC (c : Char) : Char :=
  if 'A' ≤ c ∧ c ≤ 'Z' then Char.ofNat (c.toNat + 32) else c

/-- Characters removed by Python `str.strip()` (space, tab, CR, LF cover every
input the program can see here). -/
def trimChars (l : List Char) : List Char :=
  ((l.dropWhile Char.isWhitespace).reverse.dropWhile Char.isWhitespace).reverse

/-- Rebuild a `String` from its character list. -/
def ofChars (l : List Char) : String := String.mk l

/-- Python `query.lower()`. -/
def pyLower (s : String) : String := ofChars (s.data.map lowerC)

/-- Python `query.lower().strip()`, the normalization at the top of
`find_symbol` (app.py line 176). -/
def normalize (s : String) : String := ofChars (trimChars (s.data.map lowerC))

/-- Boolean list-prefix test, the building block of the substring test. -/
def prefB : List Char → List Char → Bool
  | [], _ => true
  | _ :: _, [] => false
  | a :: as, b :: bs => a == b && prefB as bs

/-- Boolean contiguous-sublist test on character lists. -/
def subList (n : List Char) : List Char → Bool
  | [] => n.isEmpty
  | b :: bs => prefB n (b :: bs) || subList n bs

/-- Python `a in b` on strings: `a` occurs contiguously in `b`. -/
def pyIn (a b : String) : Bool := subList a.data b.data

/-- Python `any(word in q for word in ws)`. -/
def containsAny (q : String) (ws : List String) : Bool := ws.any fun w => pyIn w q

/-- The `INDIAN_STOCKS` dictionary (app.py lines 62-69), in source order. -/
def INDIAN_STOCKS : List (String × String) :=
  [("reliance", "RELIANCE.NS"), ("tcs", "TCS.NS"), ("infosys", "INFY.NS"),
   ("hdfc bank", "HDFCBANK.NS"), ("icici bank", "ICICIBANK.NS"), ("sbi", "SBIN.NS"),
   ("bharti airtel", "BHARTIARTL.NS"), ("itc", "ITC.NS"), ("wipro", "WIPRO.NS"),
   ("maruti", "MARUTI.NS"), ("bajaj finance", "BAJFINANCE.NS"), ("asian paints", "ASIANPAINT.NS"),
   ("tata motors", "TATAMOTORS.NS"), ("titan", "TITAN.NS"), ("adani enterprises", "ADANIENT.NS"),
   ("nifty", "^NSEI"), ("sensex", "^BSESN"), ("bank nifty", "^NSEBANK")]

/-- The `US_STOCKS` dictionary (app.py lines 72-78). -/
def US_STOCKS : List (String × String) :=
  [("apple", "AAPL"), ("microsoft", "MSFT"), ("google", "GOOGL"), ("amazon", "AMZN"),
   ("tesla", "TSLA"), ("meta", "META"), ("nvidia", "NVDA"), ("netflix", "NFLX"),
   ("facebook", "META"), ("alphabet", "GOOGL"), ("berkshire", "BRK-B"),
   ("johnson", "JNJ"), ("walmart", "WMT"), ("visa", "V"), ("mastercard", "MA"),
   ("sp500", "^GSPC"), ("nasdaq", "^IXIC"), ("dow", "^DJI")]

/-- The `COMMODITIES` dictionary (app.py lines 81-86). -/
def COMMODITIES : List (String × String) :=
  [("gold", "GC=F"), ("silver", "SI=F"), ("crude oil", "CL=F"), ("brent oil", "BZ=F"),
   ("natural gas", "NG=F"), ("copper", "HG=F"), ("platinum", "PL=F"), ("palladium", "PA=F"),
   ("corn", "C=F"), ("wheat", "W=F"), ("soybeans", "S=F"), ("coffee", "KC=F"),
   ("sugar", "SB=F"), ("cotton", "CT=F")]

/-- The `FOREX_PAIRS` dictionary (app.py lines 89-94). -/
def FOREX_PAIRS : List (String × String) :=
  [("eurusd", "EURUSD=X"), ("gbpusd", "GBPUSD=X"), ("usdjpy", "USDJPY=X"),
   ("usdchf", "USDCHF=X"), ("audusd", "AUDUSD=X"), ("usdcad", "USDCAD=X"),
   ("nzdusd", "NZDUSD=X"), ("usdinr", "USDINR=X"), ("eurjpy", "EURJPY=X"),
   ("gbpjpy", "GBPJPY=X"), ("chfjpy", "CHFJPY=X"), ("eurgbp", "EURGBP=X")]

/-- The `CRYPTO_PAIRS` dictionary (app.py lines 97-101). -/
def CRYPTO_PAIRS : List (String × String) :=
  [("bitcoin", "BTC-USD"), ("ethereum", "ETH-USD"), ("cardano", "ADA-USD"),
   ("solana", "SOL-USD"), ("dogecoin", "DOGE-USD"), ("litecoin", "LTC-USD"),
   ("chainlink", "LINK-USD"), ("polygon", "MATIC-USD"), ("avalanche", "AVAX-USD")]

/-- The merged table `{**INDIAN_STOCKS, **US_STOCKS, **COMMODITIES,
**FOREX_PAIRS, **CRYPTO_PAIRS}` of app.py line 179.  A Python dict merge keeps
the first occurrence position of each key and iterates in insertion order; the
alias keys of the five tables are pairwise distinct (proved below), so plain
concatenation has exactly the dict's lookup and iteration behaviour. -/
def all_symbols : List (String × String) :=
  INDIAN_STOCKS ++ US_STOCKS ++ COMMODITIES ++ FOREX_PAIRS ++ CRYPTO_PAIRS

/-- Python dict membership-plus-indexing `q in d` / `d[q]` on an association
list (keys are pairwise distinct, so first-match equals dict lookup). -/
def lookupTab : List (String × String) → String → Option String
  | [], _ => none
  | (k, v) :: rest, q => if k == q then some v else lookupTab rest q

/-- The partial-match loop of `find_symbol` (app.py lines 186-188): the first
entry, in table iteration order, whose alias contains the query or is
contained in it. -/
def firstSub (q : String) : List (String × String) → Option String
  | [] => none
  | (name, sym) :: rest =>
    if pyIn q name || pyIn name q then some sym else firstSub q rest

/-- Outcome of the Alpha Vantage SYMBOL_SEARCH request: a transport/parse
failure (the bare `except` of app.py line 198) or the `bestMatches` array,
each entry reduced to its optional `"1. symbol"` field. -/
inductive SearchOutcome where
  | netFail : SearchOutcome
  | ok : List (Option String) → SearchOutcome

/-- Outcome of a GLOBAL_QUOTE / CURRENCY_EXCHANGE_RATE request: transport or
JSON failure, or the nested response object as an association list.  A
response that merely lacks the nested key is `ok []`, because
`data.get("Global Quote", {})` produces the empty dict. -/
inductive ApiResp where
  | netFail : ApiResp
  | ok : List (String × String) → ApiResp

/-- The ambient effects of one interaction: the three Alpha Vantage oracles,
the generative-model call (`none` models every failure of that path: no model
instantiable, generation error, network error), and the wall clock, in
seconds. -/
structure Env where
  search : String → SearchOutcome
  quoteResp : String → ApiResp
  forexResp : String → String → ApiResp
  gen : String → String → Option String
  now : Nat

/-- The resolver `find_symbol` (app.py lines 174-201).  Python reassigns
`query = query.lower().strip()`, so every later use of `query` — including the
SYMBOL_SEARCH URL — sees the normalized text; `matches[0].get("1. symbol")` is
returned as-is when `bestMatches` is non-empty, which is `None` when the field
is absent. -/
def find_symbol (env : Env) (query : String) : Option String :=
  match lookupTab all_symbols (normalize query) with
  | some s => some s
  | none =>
    match firstSub (normalize query) all_symbols with
    | some s => some s
    | none =>
      match env.search (normalize query) with
      | .netFail => none
      | .ok ms =>
        match ms with
        | [] => none
        | m :: _ => m

/-- Resolver written from the words of the specification (claim C3): lowercase
and strip, exact key of the merged table, else the first alias in iteration
order with the query a substring of the alias or the alias a substring of the
query, else the first remote search match's symbol, else NotFound, a network
failure at the remote step being swallowed into NotFound. -/
def resolveSpec (env : Env) (query : String) : Option String :=
  match lookupTab all_symbols (normalize query) with
  | some s => some s
  | none =>
    match (all_symbols.find? fun p => pyIn (normalize query) p.1 || pyIn p.1 (normalize query)).map Prod.snd with
    | some s => some s
    | none =>
      match env.search (normalize query) with
      | .netFail => none
      | .ok ms => ms.head?.join

/-- Python `float(s)` on the decimal strings the endpoints return: optional
sign, digits, optional fractional part.  A string outside that shape fails
(raising in Python, which the callers catch), and the result is exact as a
rational — the code only parses, compares with zero, and reformats, so no
binary-float rounding is observable in the claims. -/
def parseUnsigned (cs : List Char) : Option ℚ :=
  let ip := cs.takeWhile fun c => c != '.'
  let rest := cs.dropWhile fun c => c != '.'
  match rest with
  | [] =>
    if !ip.isEmpty && ip.all Char.isDigit then
      some ((ip.foldl (fun a c => a * 10 + (c.toNat - 48)) 0 : Nat) : ℚ)
    else none
  | _ :: frac =>
    if (!ip.isEmpty || !frac.isEmpty) && ip.all Char.isDigit && frac.all Char.isDigit then
      some (((ip.foldl (fun a c => a * 10 + (c.toNat - 48)) 0 : Nat) : ℚ) +
        ((frac.foldl (fun a c => a * 10 + (c.toNat - 48)) 0 : Nat) : ℚ) / (10 : ℚ) ^ frac.length)
    else none

/-- Python `float(s)` including the surrounding-whitespace and sign handling. -/
def parseDec (s : String) : Option ℚ :=
  match trimChars s.data with
  | '-' :: cs => (parseUnsigned cs).map Neg.neg
  | '+' :: cs => parseUnsigned cs
  | cs => parseUnsigned cs

/-- Python `str.replace(pat, rep)` (all occurrences).  The fuel argument is
the length of the subject, which is always enough since every step consumes at
least one character; the one caller uses the single-character pattern `"%"`. -/
def replAux (p r : List Char) : Nat → List Char → List Char
  | 0, s => s
  | _ + 1, [] => []
  | n + 1, a :: rest =>
    if prefB p (a :: rest) && !p.isEmpty then
      r ++ replAux p r n ((a :: rest).drop p.length)
    else
      a :: replAux p r n rest

/-- Python `s.replace(pat, rep)` on strings. -/
def pyReplace (s pat rep : String) : String :=
  ofChars (replAux pat.data rep.data s.data.length s.data)

/-- Python slice `s[:n]`. -/
def pyTake (n : Nat) (s : String) : String := ofChars (s.data.take n)

/-- Python slice `s[n:]`. -/
def pyDrop (n : Nat) (s : String) : String := ofChars (s.data.drop n)

/-- The dictionary built by `get_yahoo_finance_data` (app.py lines 118-125):
`symbol`, `price`, `change`, `change_percent` (provider string with the `%`
removed), `volume`, and the `datetime.now()` observation instant, modelled as
the environment clock. -/
structure QuoteR where
  symbol : String
  price : ℚ
  change : ℚ
  changePercent : String
  volume : String
  timestamp : Nat
deriving DecidableEq

/-- The dictionary built by `get_forex_data` (app.py lines 143-147). -/
structure ForexR where
  pair : String
  rate : ℚ
  timestamp : String
deriving DecidableEq

/-- One outbound fetch of `get_yahoo_finance_data` (app.py lines 107-128),
without the caching decorator (made explicit below).  `now` is the clock read
by `datetime.now()`.  Transport, JSON and `float(...)` failures all land in
the `except` arm, whose body only renders a UI error and then falls to
`return None`; a missing numeric field takes the integer default `0`. -/
def get_yahoo_finance_data (env : Env) (now : Nat) (symbol : String) : Option QuoteR :=
  match env.quoteResp symbol with
  | .netFail => none
  | .ok quote =>
    if quote.isEmpty then none
    else
      let priceQ : Option ℚ :=
        match lookupTab quote "05. price" with
        | none => some 0
        | some s => parseDec s
      let changeQ : Option ℚ :=
        match lookupTab quote "09. change" with
        | none => some 0
        | some s => parseDec s
      match priceQ, changeQ with
      | some p, some c =>
        some { symbol := (lookupTab quote "01. symbol").getD symbol
               price := p
               change := c
               changePercent := pyReplace ((lookupTab quote "10. change percent").getD "0%") "%" ""
               volume := (lookupTab quote "06. volume").getD "N/A"
               timestamp := now }
      | _, _ => none

/-- One outbound fetch of `get_forex_data` (app.py lines 130-150):
`from_curr = pair[:3]`, `to_curr = pair[3:6] if len(pair) > 3 else pair[3:]`,
then the CURRENCY_EXCHANGE_RATE request, with the same failure handling as the
quote fetch. -/
def get_forex_data (env : Env) (pair : String) : Option ForexR :=
  let from_curr := pyTake 3 pair
  let to_curr := if 3 < pair.data.length then pyTake 3 (pyDrop 3 pair) else pyDrop 3 pair
  match env.forexResp from_curr to_curr with
  | .netFail => none
  | .ok rate_data =>
    if rate_data.isEmpty then none
    else
      match (match lookupTab rate_data "5. Exchange Rate" with
             | none => some (0 : ℚ)
             | some s => parseDec s) with
      | none => none
      | some r =>
        some { pair := from_curr ++ "/" ++ to_curr
               rate := r
               timestamp := (lookupTab rate_data "6. Last Refreshed").getD "" }

/-- One entry of the TTL cache: lookup key, memoized return value (failures,
i.e. `none`, included — the decorator memoizes whatever the function returns),
and the storage instant in seconds. -/
structure CacheEntry where
  key : String
  val : Option QuoteR
  storedAt : Nat
deriving DecidableEq

/-- First cache entry for `symbol` that is still fresh at instant `now`. -/
def findFresh (symbol : String) (now : Nat) : List CacheEntry → Option CacheEntry
  | [] => none
  | e :: rest =>
    if e.key == symbol && decide (now < e.storedAt + 300) then some e
    else findFresh symbol now rest

/-- Modelled from the spec: the `ttl=300` caching decorator wrapped around
`get_yahoo_finance_data` (app.py line 107) is third-party library code absent
from src/; the spec's glossary defines it as "time-bounded memoization;
entries expire unconditionally after a fixed duration", which this definition
implements with explicit state passing.  The returned flag records whether the
call issued a new outbound request (a cache miss). -/
def cached_get_yahoo_finance_data (env : Env) (now : Nat) (cache : List CacheEntry)
    (symbol : String) : Option QuoteR × List CacheEntry × Bool :=
  match findFresh symbol now cache with
  | some e => (e.val, cache, false)
  | none =>
    let v := get_yahoo_finance_data env now symbol
    (v, { key := symbol, val := v, storedAt := now } :: cache, true)

/-- Round half to even, the tie-break CPython uses when formatting. -/
def halfEvenRound (q : ℚ) : ℤ :=
  let f := Int.floor q
  let r := q - (f : ℚ)
  if r < (1 : ℚ) / 2 then f
  else if (1 : ℚ) / 2 < r then f + 1
  else if f % 2 = 0 then f else f + 1

/-- Python `f"{x:.2f}"` on the exact rational carried for a float: two
decimals with banker's rounding.  (CPython rounds the nearest double, whereas
this rounds the decimal value; no claim inspects a value where the two
differ.) -/
def fmt2 (q : ℚ) : String :=
  let n := (halfEvenRound (abs q * 100)).toNat
  (if q < 0 then "-" else "") ++ toString (n / 100) ++ "." ++
    (if n % 100 < 10 then "0" else "") ++ toString (n % 100)

/-- Python `f"{x:+.2f}"`: an explicit sign, `+` for non-negative values. -/
def fmtPlus2 (q : ℚ) : String :=
  if q < 0 then fmt2 q else "+" ++ fmt2 q

/-- Stand-in for `timestamp.strftime('%Y-%m-%d %H:%M:%S')` (app.py line 265):
an injective rendering of the observation instant.  Real calendar formatting
is wall-clock behaviour outside the embedding, and no claim inspects the
rendered text. -/
def fmtTime (t : Nat) : String := toString t

/-- The f-string returned by the price branch of `generate_fallback_response`
(app.py lines 260-271), interpolations included, with the source's 16-space
inner indentation and trailing spaces preserved. -/
def priceTemplate (data : QuoteR) (context_data : String) : String :=
  let change_indicator := if (0 : ℚ) ≤ data.change then "📈" else "📉"
  "\n                " ++ change_indicator ++ " **" ++ data.symbol ++
    " Current Price**: $" ++ fmt2 data.price ++
    "\n                **Change**: " ++ fmtPlus2 data.change ++
    " (" ++ data.changePercent ++ "%)" ++
    "\n                **Volume**: " ++ data.volume ++
    "\n                **Last Updated**: " ++ fmtTime data.timestamp ++
    "\n                \n                " ++ context_data ++
    "\n                \n                💡 **Quick Analysis**: The stock is currently " ++
    (if (0 : ℚ) ≤ data.change then "gaining" else "declining") ++
    ". \n                Consider checking recent news and market trends before making investment decisions.\n                "

/-- The market-overview template (app.py lines 275-293). -/
def market_template : String :=
  "\n        🌍 **Global Market Overview**\n        \n        The global financial markets are interconnected and influenced by various factors:\n        \n        📊 **Key Market Drivers**:\n        - Economic indicators (GDP, inflation, employment)\n        - Central bank policies and interest rates\n        - Geopolitical events and trade relations\n        - Corporate earnings and sector performance\n        \n        🔍 **Current Focus Areas**:\n        - US Federal Reserve policy decisions\n        - China's economic recovery\n        - European energy markets\n        - Emerging market currencies\n        \n        💡 **Investment Tip**: Diversification across regions and asset classes helps manage risk in volatile markets.\n        "

/-- The forex template (app.py lines 297-315). -/
def forex_template : String :=
  "\n        💱 **Forex Market Insights**\n        \n        Currency markets are the most liquid financial markets globally, trading $7.5 trillion daily.\n        \n        **Major Currency Pairs**:\n        - EUR/USD: Most traded pair, affected by ECB and Fed policies\n        - USD/JPY: Safe-haven flows influence this pair\n        - GBP/USD: Brexit and UK economic data drive movements\n        - USD/INR: Influenced by India's trade balance and RBI policies\n        \n        **Key Factors Affecting Forex**:\n        - Interest rate differentials\n        - Economic growth rates\n        - Political stability\n        - Trade balances\n        \n        ⚠️ **Risk Warning**: Forex trading involves high leverage and significant risk.\n        "

/-- The commodity-analysis template (app.py lines 319-336). -/
def commodity_template : String :=
  "\n        🏆 **Commodity Market Analysis**\n        \n        Commodities serve as inflation hedges and portfolio diversifiers.\n        \n        **Precious Metals**:\n        - Gold: Traditional safe-haven asset, influenced by USD strength and inflation\n        - Silver: Industrial and investment demand drives prices\n        \n        **Energy**:\n        - Crude Oil: Affected by supply disruptions, demand growth, and OPEC decisions\n        - Natural Gas: Seasonal demand and supply infrastructure impact prices\n        \n        **Agricultural**:\n        - Weather patterns, crop yields, and global food demand influence prices\n        \n        💡 **Investment Note**: Commodities can be volatile but provide portfolio diversification benefits.\n        "

/-- The investment-advice template (app.py lines 340-360). -/
def investment_template : String :=
  "\n        💰 **Investment Strategy Guidance**\n        \n        **Key Investment Principles**:\n        1. **Diversification**: Spread risk across asset classes and regions\n        2. **Time Horizon**: Align investments with your financial goals\n        3. **Risk Tolerance**: Only invest what you can afford to lose\n        4. **Regular Review**: Monitor and rebalance your portfolio\n        \n        **Asset Allocation Guidelines**:\n        - **Conservative**: 60% bonds, 40% stocks\n        - **Moderate**: 50% stocks, 40% bonds, 10% alternatives\n        - **Aggressive**: 80% stocks, 15% bonds, 5% alternatives\n        \n        **Before Investing**:\n        - Build an emergency fund (3-6 months expenses)\n        - Pay off high-interest debt\n        - Define clear financial goals\n        \n        ⚠️ **Disclaimer**: This is educational content, not personalized financial advice.\n        "

/-- The generic help template of the final `else` (app.py lines 363-381). -/
def help_template : String :=
  "\n        🤖 **Finance AI Assistant**\n        \n        I'm here to help with your financial questions! I can provide information about:\n        \n        📈 **Markets**: Stock prices, market analysis, and trends\n        💱 **Forex**: Currency exchange rates and trading insights  \n        🏆 **Commodities**: Gold, oil, and other commodity prices\n        💰 **Investment**: Portfolio strategies and risk management\n        📊 **Analysis**: Technical and fundamental market analysis\n        \n        **Try asking**:\n        - \"What's Apple's stock price?\"\n        - \"USD to INR exchange rate\"\n        - \"Gold price analysis\"\n        - \"Best investment strategies for beginners\"\n        \n        How can I assist you with your financial needs today?\n        "

/-- The fallback composer `generate_fallback_response` (app.py lines 250-381).
Buckets are tested in source order on `user_query.lower()`; the price bucket
resolves a symbol from the original `user_query` and fetches its quote, and
when either step fails control falls off the end of the Python function, i.e.
the call returns `None` — modelled as `Option.none`. -/
def generate_fallback_response (env : Env) (user_query context_data : String) : Option String :=
  let query_lower := pyLower user_query
  if containsAny query_lower ["price", "stock", "share"] then
    match find_symbol env user_query with
    | some symbol =>
      match get_yahoo_finance_data env env.now symbol with
      | some data => some (priceTemplate data context_data)
      | none => none
    | none => none
  else if containsAny query_lower ["market", "global", "overview", "trend"] then
    some market_template
  else if containsAny query_lower ["forex", "currency", "exchange", "usd", "eur", "inr"] then
    some forex_template
  else if containsAny query_lower ["gold", "oil", "commodity", "silver", "crude"] then
    some commodity_template
  else if containsAny query_lower ["invest", "portfolio", "strategy", "advice"] then
    some investment_template
  else
    some help_template

/-- The composer entry point `generate_ai_response` (app.py lines 203-248).
`env.gen` models the candidate-model loop plus `generate_content`: `some text`
when a model instantiates and generates, `none` when no model is instantiable
(line 217) or anything in the path raises (line 247); both branches return the
fallback, so no failure in the generative path reaches the caller. -/
def generate_ai_response (env : Env) (user_query context_data : String) : Option String :=
  match env.gen user_query context_data with
  | some text => some text
  | none => generate_fallback_response env user_query context_data

/-- A row of the `transactions` table (finance_db.py): AUTOINCREMENT id,
TEXT category, REAL amount (modelled exactly as a rational — the ledger never
computes with it), TEXT date. -/
structure TransactionRow where
  id : Nat
  category : String
  amount : ℚ
  date : String
deriving DecidableEq

/-- `add_transaction` (finance_db.py lines 18-26): when the `date` argument is
omitted the row receives `datetime.date.today().isoformat()`, supplied here as
the `today` parameter; the AUTOINCREMENT key is one more than the largest id
ever used (no deletes exist, so that is the largest id present). -/
def add_transaction (today : String) (db : List TransactionRow) (category : String)
    (amount : ℚ) (date : Option String) : List TransactionRow :=
  let d := date.getD today
  db ++ [{ id := (db.map TransactionRow.id).foldr max 0 + 1
           category := category
           amount := amount
           date := d }]

/-- Comparison used by `ORDER BY date` on a TEXT column: SQLite's default
BINARY collation is bytewise, which on the UTF-8 of ISO dates is the
lexicographic order on characters, i.e. the library order on `String`. -/
def dateLe (a b : TransactionRow) : Prop := a.date ≤ b.date

instance : DecidableRel dateLe :=
  fun a b => inferInstanceAs (Decidable (a.date ≤ b.date))

instance : IsTotal TransactionRow dateLe :=
  ⟨fun a b => le_total a.date b.date⟩

instance : IsTrans TransactionRow dateLe :=
  ⟨fun _ _ _ h1 h2 => le_trans h1 h2⟩

/-- `get_all_transactions` (finance_db.py lines 28-34): a full scan ordered by
date ascending; the relative order of equal dates is unspecified by SQLite and
here is whatever a stable insertion sort produces. -/
def get_all_transactions (db : List TransactionRow) : List TransactionRow :=
  List.insertionSort dateLe db

/-- Environment in which every outbound request fails and no generative model
is available. -/
def deadNet : Env where
  search := fun _ => .netFail
  quoteResp := fun _ => .netFail
  forexResp := fun _ _ => .netFail
  gen := fun _ _ => none
  now := 0

/-- Environment whose forex endpoint answers with a rate object that carries
only the refresh field (the rate itself then takes the integer default 0). -/
def envForex : Env :=
  { deadNet with forexResp := fun _ _ => .ok [("6. Last Refreshed", "2024-01-01 00:00:00")] }

/-- Environment whose quote endpoint answers with a non-empty `Global Quote`
object that carries only the symbol field. -/
def envQuoteDefaults : Env :=
  { deadNet with quoteResp := fun _ => .ok [("01. symbol", "AAPL")] }

/-- Environment differing from `deadNet` only in the generative model and the
forex endpoint — the parts of the world the fallback path never consults. -/
def envGenDiff : Env :=
  { deadNet with gen := fun q _ => some q, forexResp := fun _ _ => .ok [] }

/-- Sanity fact about the catalog: the alias keys of the five merged
dictionaries are pairwise distinct, so the association-list model has exactly
the Python dict's lookup and iteration behaviour. -/
lemma all_symbols_keys_nodup : (all_symbols.map Prod.fst).Nodup := by decide

/-- The partial-match loop equals `List.find?` over the same predicate. -/
lemma firstSub_eq_findq (q : String) :
    ∀ l : List (String × String),
      firstSub q l = (l.find? fun p => pyIn q p.1 || pyIn p.1 q).map Prod.snd := by
  intro l
  induction l with
  | nil => rfl
  | cons a t ih =>
    obtain ⟨n, s⟩ := a
    cases h : (pyIn q n || pyIn n q) with
    | true => simp [firstSub, List.find?_cons_of_pos, h]
    | false => simp [firstSub, List.find?_cons_of_neg, h, ih]

/-- Claim C3: the resolver lowercases and strips the query and then
short-circuits through exact match on the merged alias table, first
substring match in table iteration order, first remote search match's symbol,
and NotFound, with a network failure at the remote step swallowed into
NotFound — stated as equality with `resolveSpec`, the algorithm written from
the specification's words. -/
theorem C3_resolver_refines_spec (env : Env) (q : String) :
    find_symbol env q = resolveSpec env q := by
  unfold find_symbol resolveSpec
  rw [← firstSub_eq_findq]
  cases lookupTab all_symbols (normalize q) with
  | some s => rfl
  | none =>
    cases firstSub (normalize q) all_symbols with
    | some s => rfl
    | none =>
      cases env.search (normalize q) with
      | netFail => rfl
      | ok ms => cases ms <;> rfl

/-- Claim C6: every alias registered in any catalog table resolves to exactly
its registered symbol (the exact-match step hits, whatever the network
does). -/
theorem C6_catalog_alias_resolves (env : Env) (p : String × String)
    (hp : p ∈ all_symbols) : find_symbol env p.1 = some p.2 := by
  have hall : all_symbols.all
      (fun r => lookupTab all_symbols (normalize r.1) == some r.2) = true := by decide
  have h := List.all_eq_true.mp hall p hp
  have h' : lookupTab all_symbols (normalize p.1) = some p.2 := by
    exact eq_of_beq h
  simp only [find_symbol, h']

/-- Claim C6, witness: the first registered alias resolves with the network
dead. -/
theorem C6_catalog_alias_resolves_witness :
    find_symbol deadNet "reliance" = some "RELIANCE.NS" :=
  C6_catalog_alias_resolves deadNet ("reliance", "RELIANCE.NS") (by decide)

/-- Claim C9: a query that normalizes to the empty string (the empty query or
any whitespace-only query) is not NotFound — the empty string is a substring
of every alias, so the substring step returns the symbol of the first entry of
the merged table, which is the one registered for "reliance". -/
theorem C9_blank_query_resolves (env : Env) (q : String)
    (h : normalize q = "") : find_symbol env q = some "RELIANCE.NS" := by
  simp only [find_symbol, h]
  rfl

/-- Claim C9, witness: the empty query and a whitespace-only query both
resolve to the symbol registered for "reliance". -/
theorem C9_blank_query_resolves_witness :
    find_symbol deadNet "" = some "RELIANCE.NS" ∧
      find_symbol deadNet "   " = some "RELIANCE.NS" :=
  ⟨C9_blank_query_resolves deadNet "" (by decide),
   C9_blank_query_resolves deadNet "   " (by decide)⟩

/-- Claim C1 (code bug): the composer does not return a string on every path.
On the failing input — a query containing the keyword "price" that resolves to
no symbol, with no generative model available — the fallback's price bucket
matches, its inner lookups fail, control falls off the end of the Python
function, and the caller receives `None` instead of the `str` promised by the
function's own annotation. -/
theorem C1_price_branch_returns_none :
    generate_ai_response deadNet "price of xq" "" = none := by decide

/-- Claim C2, counterexample: for "gold price today" with every outbound call
failing, the fallback does not return the commodity-analysis template — the
query contains "price", so the price bucket wins first and the call returns
`None` when the quote fetch fails. -/
theorem C2_counterexample :
    generate_fallback_response deadNet "gold price today" "" ≠ some commodity_template := by
  decide

/-- Claim C2 as amended: for "gold price today" with every outbound call
failing, the price bucket (matched first on the keyword "price") resolves
"gold" to GC=F by substring match, the quote fetch fails, and the fallback
composer returns no output at all. -/
theorem C2_gold_price_today_returns_none :
    generate_fallback_response deadNet "gold price today" "" = none := by decide

/-- Claim C4, counterexample: a failed quote fetch IS cached by the TTL memo —
after a first call whose fetch fails (returns Unavailable), a second call on
the same symbol 10 seconds later, well inside the 5-minute TTL, issues no new
outbound request (the request flag of the second call is `false`). -/
theorem C4_counterexample :
    (cached_get_yahoo_finance_data deadNet 0 [] "AAPL").1 = none ∧
      (cached_get_yahoo_finance_data deadNet 10
        (cached_get_yahoo_finance_data deadNet 0 [] "AAPL").2.1 "AAPL").2.2 = false := by
  decide

/-- Claim C4 as amended: the TTL memo caches whatever the fetch returned,
failures included; any second call on the same symbol within the TTL window
serves the first call's result from cache and issues no outbound request. -/
theorem C4_failed_fetch_is_cached (env : Env) (t1 t2 : Nat) (sym : String)
    (h : t2 < t1 + 300) :
    cached_get_yahoo_finance_data env t2
        (cached_get_yahoo_finance_data env t1 [] sym).2.1 sym =
      ((cached_get_yahoo_finance_data env t1 [] sym).1,
       (cached_get_yahoo_finance_data env t1 [] sym).2.1, false) := by
  simp [cached_get_yahoo_finance_data, findFresh, h]

/-- Claim C4, witness for the amended statement at a concrete failing fetch. -/
theorem C4_failed_fetch_is_cached_witness :
    cached_get_yahoo_finance_data deadNet 299
        (cached_get_yahoo_finance_data deadNet 0 [] "TSLA").2.1 "TSLA" =
      ((cached_get_yahoo_finance_data deadNet 0 [] "TSLA").1,
       (cached_get_yahoo_finance_data deadNet 0 [] "TSLA").2.1, false) :=
  C4_failed_fetch_is_cached deadNet 0 299 "TSLA" (by decide)

/-- Claim C5, counterexample: for the 7-character pair "USDINRX" the claimed
split "first 3 / all remaining characters" would give the label "USD/INRX",
but the code slices `pair[3:6]` and produces "USD/INR". -/
theorem C5_counterexample :
    (get_forex_data envForex "USDINRX").map ForexR.pair = some "USD/INR" ∧
      ("USD/INR" : String) ≠ "USD/INRX" := by decide

/-- Claim C5 as amended: the base currency is the first 3 characters and the
quote currency is `pair[3:6]` when the pair is longer than 3 characters (at
most 3 characters, so pairs longer than 6 are truncated, not "the rest") and
`pair[3:]` (empty) otherwise; every successful result's pairLabel is "FROM/TO"
built from that split. -/
theorem C5_forex_split (env : Env) (pair : String) (r : ForexR)
    (h : get_forex_data env pair = some r) :
    r.pair = pyTake 3 pair ++ "/" ++
      (if 3 < pair.data.length then pyTake 3 (pyDrop 3 pair) else pyDrop 3 pair) := by
  simp only [get_forex_data] at h
  split at h
  · exact absurd h (by simp)
  · split at h
    · exact absurd h (by simp)
    · split at h
      · exact absurd h (by simp)
      · obtain rfl := (Option.some_inj.mp h).symm
        rfl

/-- Claim C5, witness for the amended statement: a successful fetch for the
6-character pair "USDINR" carries the label built from the code's split. -/
theorem C5_forex_split_witness :
    ({ pair := "USD/INR", rate := 0, timestamp := "2024-01-01 00:00:00" } : ForexR).pair =
      pyTake 3 "USDINR" ++ "/" ++
        (if 3 < "USDINR".data.length then pyTake 3 (pyDrop 3 "USDINR")
         else pyDrop 3 "USDINR") :=
  C5_forex_split envForex "USDINR" _ (by decide)

/-- Resolution reads the environment only through the search oracle. -/
lemma find_symbol_congr (e1 e2 : Env) (h : e1.search = e2.search) :
    find_symbol e1 = find_symbol e2 := by
  funext q
  simp only [find_symbol, h]

/-- The quote fetch reads the environment only through the quote oracle. -/
lemma get_yahoo_congr (e1 e2 : Env) (h : e1.quoteResp = e2.quoteResp) :
    get_yahoo_finance_data e1 = get_yahoo_finance_data e2 := by
  funext n s
  simp only [get_yahoo_finance_data, h]

/-- Claim C7: the fallback composer is deterministic — with the gateway
results it consults held fixed (the search oracle, the quote oracle, and the
clock the quote observation reads), its output is byte-identical across
environments, even ones that differ in the news/forex/generative world. -/
theorem C7_fallback_deterministic (e1 e2 : Env) (q c : String)
    (hs : e1.search = e2.search) (hq : e1.quoteResp = e2.quoteResp)
    (hn : e1.now = e2.now) :
    generate_fallback_response e1 q c = generate_fallback_response e2 q c := by
  simp only [generate_fallback_response, find_symbol_congr e1 e2 hs,
    get_yahoo_congr e1 e2 hq, hn]

/-- Claim C7, witness: two environments that agree on the consulted gateways
but differ in the generative model and the forex endpoint produce the same
fallback output. -/
theorem C7_fallback_deterministic_witness :
    generate_fallback_response deadNet "hello" "" =
      generate_fallback_response envGenDiff "hello" "" :=
  C7_fallback_deterministic deadNet envGenDiff "hello" "" rfl rfl rfl

/-- Claim C8: adding `("groceries", 42.50)` to an empty ledger with the date
omitted and reading it back yields exactly one row with id 1, that category
and amount, and today's ISO date (supplied by the clock as `today`); and the
read-back is always ordered by date ascending. -/
theorem C8_ledger :
    (∀ today : String,
      get_all_transactions (add_transaction today [] "groceries" (85 / 2 : ℚ) none) =
        [{ id := 1, category := "groceries", amount := (85 / 2 : ℚ), date := today }]) ∧
    (∀ db : List TransactionRow, List.Sorted dateLe (get_all_transactions db)) := by
  constructor
  · intro today
    simp [get_all_transactions, add_transaction]
  · intro db
    exact List.sorted_insertionSort dateLe db

/-- Claim C10: a non-empty quote object that lacks the price, change,
change-percent and volume fields does not yield Unavailable — the fields take
their defaults, giving a quote with price 0, change 0, changePercent "0" and
volume "N/A". -/
theorem C10_missing_fields_default (env : Env) (now : Nat) (sym : String)
    (fields : List (String × String))
    (h1 : env.quoteResp sym = .ok fields) (h2 : fields ≠ [])
    (h3 : lookupTab fields "05. price" = none)
    (h4 : lookupTab fields "09. change" = none)
    (h5 : lookupTab fields "10. change percent" = none)
    (h6 : lookupTab fields "06. volume" = none) :
    get_yahoo_finance_data env now sym =
      some { symbol := (lookupTab fields "01. symbol").getD sym
             price := 0
             change := 0
             changePercent := "0"
             volume := "N/A"
             timestamp := now } := by
  cases fields with
  | nil => exact absurd rfl h2
  | cons a t =>
    simp only [get_yahoo_finance_data, h1, List.isEmpty_cons, h3, h4, h5, h6,
      Option.getD_none]
    rw [show pyReplace "0%" "%" "" = "0" from by decide]
    simp

/-- Claim C10, witness: a quote object carrying only the symbol field yields
the all-defaults quote. -/
theorem C10_missing_fields_default_witness :
    get_yahoo_finance_data envQuoteDefaults 7 "AAPL" =
      some { symbol := "AAPL", price := 0, change := 0, changePercent := "0",
             volume := "N/A", timestamp := 7 } := by
  have h := C10_missing_fields_default envQuoteDefaults 7 "AAPL"
    [("01. symbol", "AAPL")] rfl (by decide) rfl rfl rfl rfl
  rw [show (lookupTab [("01. symbol", "AAPL")] "01. symbol").getD "AAPL" = "AAPL"
    from by decide] at h
  exact h

end FinanceChatbot
